import Mathlib

/-!
Jewelry try-on: tracking callback, overlay drawing, snapshot and Drive catalogue cache.

A shallow embedding of `script.js`.  JavaScript numbers are modelled as exact rationals
(`0.8 = 4/5`, `0.2 = 1/5`), arrays as lists, `null`/`undefined` as `none`, and a thrown
exception as an `Except`/`Option` error value.  Module-level variables of the script are the
fields of `AppState`; a canvas is its pixel size together with the `drawImage` calls painted
on it since it was last cleared.
-/

namespace TryOn

/-! ## Data model -/

/-- Exceptions the modelled code can raise. -/
inductive JsError where
  | typeError
  | error (msg : String)
  | jsonRejected
  | securityError
  deriving DecidableEq, Repr

/-- One face-mesh landmark `{x, y, z}`. -/
structure Landmark where
  x : ℚ
  y : ℚ
  z : ℚ
  deriving DecidableEq

/-- A decoded `Image` element: only its source and pixel size matter. -/
structure Image where
  src : String
  width : ℕ
  height : ℕ
  deriving DecidableEq, Repr

/-- First argument of `ctx.drawImage`: a jewelry image or the `<video>` element. -/
inductive DrawSource where
  | image (img : Image)
  | video
  deriving DecidableEq

/-- One call `ctx.drawImage(source, dx, dy, dw, dh)`. -/
structure DrawCall where
  source : DrawSource
  dx : ℚ
  dy : ℚ
  dw : ℚ
  dh : ℚ
  deriving DecidableEq

/-- A canvas with its 2D context: size, and the draw calls painted since the last clear. -/
structure Canvas where
  width : ℕ
  height : ℕ
  painted : List DrawCall
  deriving DecidableEq

/-- The call `ctx.clearRect(0, 0, canvas.width, canvas.height)`: wipes the whole canvas. -/
def Canvas.clearRect (c : Canvas) : Canvas :=
  { c with painted := [] }

/-- The call `ctx.drawImage(source, dx, dy, dw, dh)`. -/
def Canvas.drawImage (c : Canvas) (source : DrawSource) (dx dy dw dh : ℚ) : Canvas :=
  { c with painted := c.painted ++ [⟨source, dx, dy, dw, dh⟩] }

/-- A pixel position `{x, y}`. -/
structure Point where
  x : ℚ
  y : ℚ
  deriving DecidableEq

/-- The three locals `leftEar`, `rightEar`, `neck` of `drawJewelry`. -/
structure Anchors where
  leftEar : Point
  rightEar : Point
  neck : Point
  deriving DecidableEq

/-- The module-level variables and DOM properties the modelled functions read or write. -/
structure AppState where
  canvasElement : Canvas
  earringImg : Option Image
  necklaceImg : Option Image
  smoothedLandmarks : Option (List Landmark)
  lastSnapshotDataURL : String
  videoWidth : ℕ
  videoHeight : ℕ
  snapshotPreviewSrc : String
  snapshotModalDisplay : String
  deriving DecidableEq

/-- The argument of the `faceMesh.onResults` callback. -/
structure Results where
  multiFaceLandmarks : Option (List (List Landmark))
  deriving DecidableEq

/-! ## Landmark smoothing and the tracker callback (`faceMesh.onResults`) -/

/-- Reading `landmarks[i].x`: a `TypeError` when `landmarks[i]` is `undefined`. -/
def landmarkAt (landmarks : List Landmark) (i : ℕ) : Except JsError Landmark :=
  match landmarks[i]? with
  | some p => .ok p
  | none => .error .typeError

/-- The object literal built by the `map` callback of `onResults`. -/
def blend (prev new : Landmark) : Landmark :=
  { x := prev.x * 0.8 + new.x * 0.2
    y := prev.y * 0.8 + new.y * 0.2
    z := prev.z * 0.8 + new.z * 0.2 }

/-- The loop of `smoothedLandmarks.map((prev, i) => ...)` from index `i` on. -/
def smoothFrom (newLandmarks : List Landmark) : ℕ → List Landmark → Except JsError (List Landmark)
  | _, [] => .ok []
  | i, prev :: rest => do
    let n ← landmarkAt newLandmarks i
    let tail ← smoothFrom newLandmarks (i + 1) rest
    return blend prev n :: tail

/-- The expression `smoothedLandmarks.map((prev, i) => ({ ... newLandmarks[i] ... }))`. -/
def smoothMap (smoothedLandmarks newLandmarks : List Landmark) : Except JsError (List Landmark) :=
  smoothFrom newLandmarks 0 smoothedLandmarks

/-! ## Overlay drawing (`drawJewelry`) -/

/-- Lines 152-154 of `drawJewelry`: the anchors, scaled by the size of `canvasElement`. -/
def jewelryAnchors (canvasElement : Canvas) (landmarks : List Landmark) :
    Except JsError Anchors := do
  let l132 ← landmarkAt landmarks 132
  let leftEar : Point :=
    { x := l132.x * canvasElement.width - 6, y := l132.y * canvasElement.height - 16 }
  let l361 ← landmarkAt landmarks 361
  let rightEar : Point :=
    { x := l361.x * canvasElement.width + 6, y := l361.y * canvasElement.height - 16 }
  let l152 ← landmarkAt landmarks 152
  let neck : Point :=
    { x := l152.x * canvasElement.width - 8, y := l152.y * canvasElement.height + 10 }
  return { leftEar := leftEar, rightEar := rightEar, neck := neck }

/-- The function `drawJewelry(landmarks, ctx)`; it reads the globals `canvasElement`,
`earringImg` and `necklaceImg` from `s` and returns `ctx` after the draws. -/
def drawJewelry (s : AppState) (landmarks : List Landmark) (ctx : Canvas) :
    Except JsError Canvas := do
  let earringScale : ℚ := 0.07
  let necklaceScale : ℚ := 0.18
  let a ← jewelryAnchors s.canvasElement landmarks
  let ctx :=
    match s.earringImg with
    | some earringImg =>
      let w := earringImg.width * earringScale
      let h := earringImg.height * earringScale
      let ctx := ctx.drawImage (.image earringImg) (a.leftEar.x - w / 2) a.leftEar.y w h
      ctx.drawImage (.image earringImg) (a.rightEar.x - w / 2) a.rightEar.y w h
    | none => ctx
  let ctx :=
    match s.necklaceImg with
    | some necklaceImg =>
      let w := necklaceImg.width * necklaceScale
      let h := necklaceImg.height * necklaceScale
      ctx.drawImage (.image necklaceImg) (a.neck.x - w / 2) a.neck.y w h
    | none => ctx
  return ctx

/-- The callback passed to `faceMesh.onResults`.  The second component is the exception that
escapes the callback, if any; assignments made before the throw are kept. -/
def onResults (s : AppState) (results : Results) : AppState × Option JsError :=
  let s := { s with canvasElement := s.canvasElement.clearRect }
  match results.multiFaceLandmarks with
  | some (newLandmarks :: _) =>
    let smoothed : Except JsError (List Landmark) :=
      match s.smoothedLandmarks with
      | none => .ok newLandmarks
      | some prev => smoothMap prev newLandmarks
    match smoothed with
    | .error e => (s, some e)
    | .ok sm =>
      let s := { s with smoothedLandmarks := some sm }
      match drawJewelry s sm s.canvasElement with
      | .error e => (s, some e)
      | .ok ctx => ({ s with canvasElement := ctx }, none)
  | _ => (s, none)

/-- What one call of `takeSnapshot` did: the state it leaves, the `alert` it raised, and the
off-screen canvas it created (with everything drawn on it), if it created one. -/
structure SnapshotRun where
  state : AppState
  alert : Option String
  snapshotCanvas : Option Canvas
  deriving DecidableEq

/-- The function `takeSnapshot()`.  `toDataURL` stands for `snapshotCanvas.toDataURL` with the PNG type,
which either encodes the canvas or throws (tainted canvas). -/
def takeSnapshot (toDataURL : Canvas → Except JsError String) (s : AppState) : SnapshotRun :=
  match s.smoothedLandmarks with
  | none =>
    { state := s, alert := some "Face not detected. Please try again.", snapshotCanvas := none }
  | some smoothedLandmarks =>
    let failed : String :=
      "Snapshot failed (Google Drive images may block CORS). Try Firebase or GitHub for images if needed."
    let snapshotCanvas : Canvas := { width := 300, height := 150, painted := [] }
    let snapshotCanvas := { snapshotCanvas with width := s.videoWidth, painted := [] }
    let snapshotCanvas := { snapshotCanvas with height := s.videoHeight, painted := [] }
    let ctx := snapshotCanvas.drawImage .video 0 0 snapshotCanvas.width snapshotCanvas.height
    match drawJewelry s smoothedLandmarks ctx with
    | .error _ => { state := s, alert := some failed, snapshotCanvas := some ctx }
    | .ok ctx =>
      match toDataURL ctx with
      | .error _ => { state := s, alert := some failed, snapshotCanvas := some ctx }
      | .ok url =>
        { state := { s with lastSnapshotDataURL := url
                            snapshotPreviewSrc := url
                            snapshotModalDisplay := "block" }
          alert := none
          snapshotCanvas := some ctx }

/-! ## Drive catalogue cache (`fetchDriveImagesByCategory`) -/

/-- The constant `DRIVE_API_URL`. -/
def DRIVE_API_URL : String :=
  "https://script.google.com/macros/s/AKfycbyHVOriK2qu99zk8VW7j88z8k2Jm2EJ5UwALVteW9h4sWAWFyyvTiU87EXIc5F3mH8/exec"

/-- One catalogue entry `{name, link, thumb?}`. -/
structure Item where
  name : String
  link : String
  thumb : Option String
  deriving DecidableEq, Repr

/-- The parsed response body; `items` is `none` when `json.items` is missing (falsy). -/
structure Payload where
  items : Option (List Item)
  deriving DecidableEq, Repr

/-- The value `fetch` resolves to; `json` is `none` when `res.json()` rejects. -/
structure Response where
  ok : Bool
  status : ℕ
  json : Option Payload
  deriving DecidableEq, Repr

/-- An outbound `fetch` of `DRIVE_API_URL?category=encodeURIComponent(category)`, recorded by
its endpoint and the category it carries. -/
structure Request where
  endpoint : String
  category : String
  deriving DecidableEq, Repr

/-- The `Map` held in `driveCache`, in insertion order. -/
abbrev DriveCache := List (String × List Item)

/-- The method `Map.prototype.get`. -/
def DriveCache.get (c : DriveCache) (key : String) : Option (List Item) :=
  List.lookup key c

/-- The method `Map.prototype.has`. -/
def DriveCache.has (c : DriveCache) (key : String) : Bool :=
  (DriveCache.get c key).isSome

/-- The method `Map.prototype.set`: overwrite in place, or append a new key. -/
def DriveCache.set (c : DriveCache) (key : String) (value : List Item) : DriveCache :=
  if DriveCache.has c key then c.map (fun e => if e.1 == key then (key, value) else e)
  else c ++ [(key, value)]

/-- The cache together with the log of catalogue requests sent so far. -/
structure FetchState where
  driveCache : DriveCache
  sent : List Request
  deriving DecidableEq, Repr

/-- Where a call stands when it first yields control. -/
inductive Started where
  | returned (items : List Item)
  | awaiting (req : Request)
  deriving DecidableEq, Repr

/-- The synchronous part of `fetchDriveImagesByCategory`, up to `await fetch(url)`: a cache hit
returns at once, otherwise the request is sent and the call suspends. -/
def fetchStart (st : FetchState) (category : String) : FetchState × Started :=
  let cacheKey := "cat:" ++ category
  if DriveCache.has st.driveCache cacheKey then
    (st, .returned ((DriveCache.get st.driveCache cacheKey).getD []))
  else
    let url : Request := { endpoint := DRIVE_API_URL, category := category }
    ({ st with sent := st.sent ++ [url] }, .awaiting url)

/-- The rest of `fetchDriveImagesByCategory`, run when the awaited response `res` arrives.
Nothing between `await fetch(url)` and `driveCache.set` reads or writes shared state, so the
two resumptions (after `fetch`, after `res.json()`) are taken as one step. -/
def fetchResume (st : FetchState) (category : String) (res : Response) :
    FetchState × Except JsError (List Item) :=
  let cacheKey := "cat:" ++ category
  if !res.ok then
    (st, .error (.error ("Drive API failed (" ++ toString res.status ++ ")")))
  else
    match res.json with
    | none => (st, .error .jsonRejected)
    | some json =>
      match json.items with
      | none => (st, .error (.error "Invalid response from Drive API"))
      | some items =>
        ({ st with driveCache := DriveCache.set st.driveCache cacheKey items }, .ok items)

/-- The synchronous parts of `n` calls for `category`, one after the other, none resumed yet. -/
def startCalls (category : String) : ℕ → FetchState → FetchState × List Started
  | 0, st => (st, [])
  | n + 1, st =>
    let r := fetchStart st category
    let rest := startCalls category n r.1
    (rest.1, r.2 :: rest.2)

/-- The started calls are resumed in order, each with the response to its own request. -/
def resumeCalls (category : String) :
    List (Started × Response) → FetchState → FetchState × List (Except JsError (List Item))
  | [], st => (st, [])
  | (.returned items, _) :: rest, st =>
    let r := resumeCalls category rest st
    (r.1, .ok items :: r.2)
  | (.awaiting _, res) :: rest, st =>
    let r := fetchResume st category res
    let rs := resumeCalls category rest r.1
    (rs.1, r.2 :: rs.2)

/-- Overlapping calls for one category: every call is started before any response arrives,
then each is resumed with its own response. -/
def overlappingCalls (st : FetchState) (category : String) (responses : List Response) :
    FetchState × List (Except JsError (List Item)) :=
  let started := startCalls category responses.length st
  resumeCalls category (started.2.zip responses) started.1

/-! ## The contracts of the specification, for comparison with the code -/

/-- Contract `AnchorProjector.project` (spec 4.2), in the words of the spec: each landmark scaled by
the surface dimensions, then offset by `(-6, -16)`, `(+6, -16)` and `(-8, +10)` pixels. -/
def specProject (l132 l361 l152 : Landmark) (surfaceWidth surfaceHeight : ℚ) : Anchors :=
  { leftEar := ⟨l132.x * surfaceWidth - 6, l132.y * surfaceHeight - 16⟩
    rightEar := ⟨l361.x * surfaceWidth + 6, l361.y * surfaceHeight - 16⟩
    neck := ⟨l152.x * surfaceWidth - 8, l152.y * surfaceHeight + 10⟩ }

/-- Contract `OverlayCompositor.composite` (spec 4.3), in the words of the spec, as the draw calls
it asks for: the earring twice, centred on each ear anchor and top-aligned, at 0.07 of its own
size; then the necklace once, centred on the neck anchor, at 0.18 of its own size. -/
def specComposite (a : Anchors) (earringImage necklaceImage : Option Image) : List DrawCall :=
  (match earringImage with
    | some e =>
      [⟨.image e, a.leftEar.x - 0.07 * e.width / 2, a.leftEar.y, 0.07 * e.width, 0.07 * e.height⟩,
       ⟨.image e, a.rightEar.x - 0.07 * e.width / 2, a.rightEar.y, 0.07 * e.width, 0.07 * e.height⟩]
    | none => []) ++
  (match necklaceImage with
    | some n =>
      [⟨.image n, a.neck.x - 0.18 * n.width / 2, a.neck.y, 0.18 * n.width, 0.18 * n.height⟩]
    | none => [])

/-! ## Concrete inputs used to exercise the model -/

/-- A start-up state: nothing selected, no landmarks yet, a 1280x720 canvas and video. -/
def idleState : AppState :=
  { canvasElement := { width := 1280, height := 720, painted := [] }
    earringImg := none
    necklaceImg := none
    smoothedLandmarks := none
    lastSnapshotDataURL := ""
    videoWidth := 1280
    videoHeight := 720
    snapshotPreviewSrc := ""
    snapshotModalDisplay := "none" }

/-- A one-landmark set at the origin. -/
def originSet : List Landmark := [⟨0, 0, 0⟩]

/-- A one-landmark set at `(1, 1, 1)`. -/
def unitSet : List Landmark := [⟨1, 1, 1⟩]

/-- A two-landmark set. -/
def pairSet : List Landmark := [⟨1, 1, 1⟩, ⟨1 / 2, 1 / 2, 1 / 2⟩]

/-- A tracking state whose smoother holds `originSet`. -/
def trackingOrigin : AppState :=
  { idleState with smoothedLandmarks := some originSet }

/-- A full face: 478 landmarks, all at `(0.50, 0.40, 0.0)`. -/
def sampleFace : List Landmark := List.replicate 478 ⟨1 / 2, 2 / 5, 0⟩

/-- A decoded 100x200 earring image. -/
def sampleEarring : Image := { src := "earring.png", width := 100, height := 200 }

/-- A decoded 300x100 necklace image. -/
def sampleNecklace : Image := { src := "necklace.png", width := 300, height := 100 }

/-- The start-up state after an earring has been selected. -/
def earringSelected : AppState :=
  { idleState with earringImg := some sampleEarring }

/-- A PNG encoder that always succeeds. -/
def sampleToDataURL : Canvas → Except JsError String :=
  fun _ => .ok "data:image/png;base64,"

/-- A tracking state on `sampleFace` with both an earring and a necklace selected. -/
def bothSelected : AppState :=
  { idleState with
    earringImg := some sampleEarring
    necklaceImg := some sampleNecklace
    smoothedLandmarks := some sampleFace }

/-- The catalogue answer of the scenario in the spec: one item named `A` with link `u1`. -/
def goldResponse : Response :=
  { ok := true, status := 200, json := some ⟨some [⟨"A", "u1", none⟩]⟩ }

/-- A catalogue answer with a non-success status. -/
def failedResponse : Response :=
  { ok := false, status := 500, json := none }

/-- The state at page load: empty cache, nothing sent. -/
def freshFetchState : FetchState :=
  { driveCache := [], sent := [] }

/-! ## Lemmas on the smoothing step -/

theorem landmarkAt_of_lt (new : List Landmark) (i : ℕ) (h : i < new.length) :
    landmarkAt new i = .ok new[i] := by
  simp [landmarkAt, List.getElem?_eq_getElem h]

theorem landmarkAt_of_le (new : List Landmark) (i : ℕ) (h : new.length ≤ i) :
    landmarkAt new i = .error .typeError := by
  simp [landmarkAt, List.getElem?_eq_none h]

theorem smoothFrom_ok (new : List Landmark) :
    ∀ (prev : List Landmark) (i : ℕ), i + prev.length ≤ new.length →
      smoothFrom new i prev = .ok (List.zipWith blend prev (new.drop i))
  | [], i, _ => by simp [smoothFrom]
  | p :: ps, i, h => by
    have hi : i < new.length := by simp at h; omega
    have ih := smoothFrom_ok new ps (i + 1) (by simp at h; omega)
    rw [smoothFrom, landmarkAt_of_lt new i hi]
    simp only [ih, bind, Except.bind, pure, Except.pure]
    rw [List.drop_eq_getElem_cons hi, List.zipWith_cons_cons]

theorem smoothFrom_error (new : List Landmark) :
    ∀ (prev : List Landmark) (i : ℕ), prev ≠ [] → new.length < i + prev.length →
      smoothFrom new i prev = .error .typeError
  | [], _, h, _ => absurd rfl h
  | p :: ps, i, _, h => by
    by_cases hi : i < new.length
    · have hps : ps ≠ [] := by
        intro hnil
        subst hnil
        simp at h
        omega
      have ih := smoothFrom_error new ps (i + 1) hps (by simp at h; omega)
      rw [smoothFrom, landmarkAt_of_lt new i hi]
      simp [ih, bind, Except.bind]
    · rw [smoothFrom, landmarkAt_of_le new i (by omega)]
      simp [bind, Except.bind]

theorem smoothMap_ok (prev new : List Landmark) (h : prev.length ≤ new.length) :
    smoothMap prev new = .ok (List.zipWith blend prev new) := by
  have := smoothFrom_ok new prev 0 (by omega)
  simpa [smoothMap] using this

theorem smoothMap_error (prev new : List Landmark) (h : new.length < prev.length) :
    smoothMap prev new = .error .typeError := by
  have hne : prev ≠ [] := by
    intro hnil
    subst hnil
    simp at h
  exact smoothFrom_error new prev 0 hne (by omega)

/-- The smoother state after one detection frame whose first face is `L`. -/
theorem onResults_smoothed (s : AppState) (L : List Landmark) (rest : List (List Landmark)) :
    (onResults s ⟨some (L :: rest)⟩).1.smoothedLandmarks =
      match s.smoothedLandmarks with
      | none => some L
      | some prev =>
        match smoothMap prev L with
        | .ok sm => some sm
        | .error _ => some prev := by
  unfold onResults
  cases hs : s.smoothedLandmarks with
  | none =>
    simp only [hs]
    cases hd : drawJewelry _ L _ <;> simp [hd]
  | some prev =>
    simp only [hs]
    cases hm : smoothMap prev L with
    | error e => simp [hs]
    | ok sm =>
      simp only []
      cases hd : drawJewelry _ sm _ <;> simp [hd]

/-- The callback fails on a frame shorter than the smoother state and leaves that state. -/
theorem onResults_short_frame (s : AppState) (prev raw : List Landmark)
    (rest : List (List Landmark)) (hs : s.smoothedLandmarks = some prev)
    (h : raw.length < prev.length) :
    (onResults s ⟨some (raw :: rest)⟩).2 = some .typeError ∧
      (onResults s ⟨some (raw :: rest)⟩).1.smoothedLandmarks = some prev := by
  have hm := smoothMap_error prev raw h
  constructor
  · simp [onResults, hs, hm]
  · rw [onResults_smoothed, hs]
    simp [hm]

/-- C1: starting with no smoother state, a detection frame with `A` makes the state exactly
`A`, and a following detection frame with `B` of the same length leaves, at every index and
for each of `x`, `y`, `z`, the value `4/5 * A[i] + 1/5 * B[i]`. -/
theorem smooth_bootstrap_then_blend (s : AppState) (A B : List Landmark)
    (restA restB : List (List Landmark)) (h0 : s.smoothedLandmarks = none)
    (hlen : A.length = B.length) :
    (onResults s ⟨some (A :: restA)⟩).1.smoothedLandmarks = some A ∧
      ∃ S, (onResults (onResults s ⟨some (A :: restA)⟩).1
              ⟨some (B :: restB)⟩).1.smoothedLandmarks = some S ∧
        S.length = A.length ∧
        ∀ (i : ℕ) (a b : Landmark), A[i]? = some a → B[i]? = some b →
          S[i]? = some ⟨4 / 5 * a.x + 1 / 5 * b.x, 4 / 5 * a.y + 1 / 5 * b.y,
            4 / 5 * a.z + 1 / 5 * b.z⟩ := by
  have h1 : (onResults s ⟨some (A :: restA)⟩).1.smoothedLandmarks = some A := by
    rw [onResults_smoothed, h0]
  refine ⟨h1, List.zipWith blend A B, ?_, by simp [hlen], ?_⟩
  · rw [onResults_smoothed, h1]
    simp [smoothMap_ok A B (by omega)]
  · intro i a b ha hb
    simp only [List.getElem?_zipWith, ha, hb, blend, Option.some.injEq, Landmark.mk.injEq]
    refine ⟨?_, ?_, ?_⟩ <;> norm_num <;> ring

/-- Witness for C1: bootstrap with the origin set, then blend in the unit set. -/
theorem smooth_bootstrap_then_blend_witness :
    (onResults idleState ⟨some [originSet]⟩).1.smoothedLandmarks = some originSet ∧
      ∃ S, (onResults (onResults idleState ⟨some [originSet]⟩).1
              ⟨some [unitSet]⟩).1.smoothedLandmarks = some S ∧
        S.length = originSet.length ∧
        ∀ (i : ℕ) (a b : Landmark), originSet[i]? = some a → unitSet[i]? = some b →
          S[i]? = some ⟨4 / 5 * a.x + 1 / 5 * b.x, 4 / 5 * a.y + 1 / 5 * b.y,
            4 / 5 * a.z + 1 / 5 * b.z⟩ :=
  smooth_bootstrap_then_blend idleState originSet unitSet [] [] rfl rfl

/-- C5 as stated fails: a frame longer than the smoother state is not rejected; the step
succeeds and the extra landmark is dropped. -/
theorem longer_frame_is_truncated :
    originSet.length ≠ pairSet.length ∧
      smoothMap originSet pairSet = .ok [⟨1 / 5, 1 / 5, 1 / 5⟩] ∧
      (onResults trackingOrigin ⟨some [pairSet]⟩).1.smoothedLandmarks =
        some [⟨1 / 5, 1 / 5, 1 / 5⟩] := by
  have hm : smoothMap originSet pairSet = .ok [⟨1 / 5, 1 / 5, 1 / 5⟩] := by
    simp [smoothMap, smoothFrom, originSet, pairSet, landmarkAt, blend, bind, Except.bind,
      pure, Except.pure]
    norm_num
  refine ⟨by decide, hm, ?_⟩
  rw [onResults_smoothed]
  simp [trackingOrigin, hm]

/-- C5 (amended): with smoother state `prev`, a frame shorter than `prev` makes the smoothing
step and the callback fail with a `TypeError`, the state staying `prev`; a frame longer than
`prev` is accepted: the step pairs `prev` with the first `prev.length` landmarks of the frame
and the result has the length of `prev`. -/
theorem smooth_length_mismatch (s : AppState) (prev raw : List Landmark)
    (rest : List (List Landmark)) (hs : s.smoothedLandmarks = some prev) :
    (raw.length < prev.length →
        smoothMap prev raw = .error .typeError ∧
        (onResults s ⟨some (raw :: rest)⟩).2 = some .typeError ∧
        (onResults s ⟨some (raw :: rest)⟩).1.smoothedLandmarks = some prev) ∧
      (prev.length < raw.length →
        smoothMap prev raw = .ok (List.zipWith blend prev (raw.take prev.length)) ∧
        (List.zipWith blend prev (raw.take prev.length)).length = prev.length ∧
        (onResults s ⟨some (raw :: rest)⟩).1.smoothedLandmarks =
          some (List.zipWith blend prev (raw.take prev.length))) := by
  constructor
  · intro h
    exact ⟨smoothMap_error prev raw h, onResults_short_frame s prev raw rest hs h⟩
  · intro h
    have hz : List.zipWith blend prev raw = List.zipWith blend prev (raw.take prev.length) := by
      apply List.ext_getElem?
      intro i
      simp only [List.getElem?_zipWith, List.getElem?_take]
      by_cases hi : i < prev.length
      · simp [hi]
      · simp [hi, List.getElem?_eq_none (Nat.le_of_not_lt hi)]
    have hm := smoothMap_ok prev raw (by omega)
    rw [hz] at hm
    refine ⟨hm, by simp; omega, ?_⟩
    rw [onResults_smoothed, hs]
    simp [hm]

/-- Witness for C5 (amended): a one-landmark frame against a two-landmark state fails, a
two-landmark frame against a one-landmark state is accepted. -/
theorem smooth_length_mismatch_witness :
    (smoothMap pairSet originSet = .error .typeError ∧
        (onResults { idleState with smoothedLandmarks := some pairSet }
          ⟨some [originSet]⟩).2 = some .typeError ∧
        (onResults { idleState with smoothedLandmarks := some pairSet }
          ⟨some [originSet]⟩).1.smoothedLandmarks = some pairSet) ∧
      (smoothMap originSet pairSet =
          .ok (List.zipWith blend originSet (pairSet.take originSet.length)) ∧
        (List.zipWith blend originSet (pairSet.take originSet.length)).length =
          originSet.length ∧
        (onResults trackingOrigin ⟨some [pairSet]⟩).1.smoothedLandmarks =
          some (List.zipWith blend originSet (pairSet.take originSet.length))) :=
  ⟨(smooth_length_mismatch { idleState with smoothedLandmarks := some pairSet }
      pairSet originSet [] rfl).1 (by decide),
   (smooth_length_mismatch trackingOrigin originSet pairSet [] rfl).2 (by decide)⟩

theorem landmarkAt_of_some (L : List Landmark) (i : ℕ) (p : Landmark) (h : L[i]? = some p) :
    landmarkAt L i = .ok p := by
  simp [landmarkAt, h]

theorem jewelryAnchors_eq_specProject (c : Canvas) (L : List Landmark) (p q r : Landmark)
    (h132 : L[132]? = some p) (h361 : L[361]? = some q) (h152 : L[152]? = some r) :
    jewelryAnchors c L = .ok (specProject p q r c.width c.height) := by
  simp [jewelryAnchors, specProject, landmarkAt_of_some L _ _ h132,
    landmarkAt_of_some L _ _ h361, landmarkAt_of_some L _ _ h152, bind, Except.bind, pure,
    Except.pure]

theorem drawJewelry_eq_specComposite (s : AppState) (L : List Landmark) (ctx : Canvas)
    (a : Anchors) (ha : jewelryAnchors s.canvasElement L = .ok a) :
    drawJewelry s L ctx =
      .ok { ctx with painted := ctx.painted ++ specComposite a s.earringImg s.necklaceImg } := by
  unfold drawJewelry
  simp only [ha, bind, Except.bind, pure, Except.pure, specComposite, Canvas.drawImage]
  cases s.earringImg <;> cases s.necklaceImg <;>
    simp [mul_comm]

theorem sampleFace_get (i : ℕ) (h : i < 478) : sampleFace[i]? = some ⟨1 / 2, 2 / 5, 0⟩ := by
  unfold sampleFace
  rw [List.getElem?_replicate, if_pos h]

theorem onResults_bootstrap_draw (s : AppState) (L : List Landmark)
    (rest : List (List Landmark)) (a : Anchors) (h0 : s.smoothedLandmarks = none)
    (ha : jewelryAnchors s.canvasElement L = .ok a) :
    onResults s ⟨some (L :: rest)⟩ =
      ({ s with
          smoothedLandmarks := some L
          canvasElement :=
            { s.canvasElement with painted := specComposite a s.earringImg s.necklaceImg } },
        none) := by
  have ha2 : jewelryAnchors
      ({ s with canvasElement := s.canvasElement.clearRect,
                smoothedLandmarks := some L } : AppState).canvasElement L = .ok a := ha
  unfold onResults
  simp only [h0]
  rw [drawJewelry_eq_specComposite _ L _ a ha2]
  simp [Canvas.clearRect]

theorem sampleFace_anchors (c : Canvas) :
    jewelryAnchors c sampleFace =
      .ok (specProject ⟨1 / 2, 2 / 5, 0⟩ ⟨1 / 2, 2 / 5, 0⟩ ⟨1 / 2, 2 / 5, 0⟩ c.width c.height) :=
  jewelryAnchors_eq_specProject c sampleFace _ _ _ (sampleFace_get 132 (by decide))
    (sampleFace_get 361 (by decide)) (sampleFace_get 152 (by decide))

/-! ## Claims on anchors and overlay drawing -/

/-- C2: for a landmark set with indices 132, 361 and 152 and a canvas of size `W x H`, the
anchors computed by `drawJewelry` are `(L[132].x*W - 6, L[132].y*H - 16)`,
`(L[361].x*W + 6, L[361].y*H - 16)` and `(L[152].x*W - 8, L[152].y*H + 10)`, and the overlays
are drawn at these anchors; with `L[132] = (0.50, 0.40, 0.0)` at 1280x720 the left ear is
`(634, 272)`. -/
theorem anchors_from_landmarks (s : AppState) (L : List Landmark) (p q r : Landmark)
    (h132 : L[132]? = some p) (h361 : L[361]? = some q) (h152 : L[152]? = some r) :
    jewelryAnchors s.canvasElement L = .ok
        { leftEar := ⟨p.x * s.canvasElement.width - 6, p.y * s.canvasElement.height - 16⟩
          rightEar := ⟨q.x * s.canvasElement.width + 6, q.y * s.canvasElement.height - 16⟩
          neck := ⟨r.x * s.canvasElement.width - 8, r.y * s.canvasElement.height + 10⟩ } ∧
      (∀ ctx : Canvas, drawJewelry s L ctx = .ok ⟨ctx.width, ctx.height, ctx.painted ++
        specComposite
          { leftEar := ⟨p.x * s.canvasElement.width - 6, p.y * s.canvasElement.height - 16⟩
            rightEar := ⟨q.x * s.canvasElement.width + 6, q.y * s.canvasElement.height - 16⟩
            neck := ⟨r.x * s.canvasElement.width - 8, r.y * s.canvasElement.height + 10⟩ }
          s.earringImg s.necklaceImg⟩) ∧
      (p = ⟨0.50, 0.40, 0.0⟩ → s.canvasElement.width = 1280 → s.canvasElement.height = 720 →
        ∃ a, jewelryAnchors s.canvasElement L = .ok a ∧ a.leftEar = ⟨634, 272⟩) := by
  have h := jewelryAnchors_eq_specProject s.canvasElement L p q r h132 h361 h152
  refine ⟨h, fun ctx => drawJewelry_eq_specComposite s L ctx _ h, ?_⟩
  intro hp hw hh
  refine ⟨_, h, ?_⟩
  subst hp
  simp only [specProject, hw, hh, Point.mk.injEq]
  constructor <;> norm_num

/-- Witness for C2: the scenario of the spec, `sampleFace` on a 1280x720 canvas. -/
theorem anchors_from_landmarks_witness :
    jewelryAnchors bothSelected.canvasElement sampleFace =
        .ok { leftEar := ⟨634, 272⟩, rightEar := ⟨646, 272⟩, neck := ⟨632, 298⟩ } ∧
      ∃ a, jewelryAnchors bothSelected.canvasElement sampleFace = .ok a ∧
        a.leftEar = ⟨634, 272⟩ := by
  have h := anchors_from_landmarks bothSelected sampleFace _ _ _
    (sampleFace_get 132 (by decide)) (sampleFace_get 361 (by decide))
    (sampleFace_get 152 (by decide))
  refine ⟨?_, h.2.2 (by norm_num) rfl rfl⟩
  rw [h.1]
  simp only [bothSelected, idleState]
  norm_num

/-- C3: once the anchors are computed, `drawJewelry` issues exactly these draw calls, in this
order: for a present earring of size `(w0, h0)`, two draws of size `(0.07*w0, 0.07*h0)` with
top-left `(leftEar.x - 0.07*w0/2, leftEar.y)` and `(rightEar.x - 0.07*w0/2, rightEar.y)`; then
for a present necklace of size `(w1, h1)` one draw of size `(0.18*w1, 0.18*h1)` with top-left
`(neck.x - 0.18*w1/2, neck.y)`; an absent slot draws nothing, and with both absent the canvas
is returned unchanged. -/
theorem drawJewelry_draw_calls (s : AppState) (L : List Landmark) (ctx : Canvas) (a : Anchors)
    (ha : jewelryAnchors s.canvasElement L = .ok a) :
    drawJewelry s L ctx = .ok { ctx with painted := ctx.painted ++
        ((match s.earringImg with
          | some e =>
            [⟨.image e, a.leftEar.x - 0.07 * e.width / 2, a.leftEar.y,
                0.07 * e.width, 0.07 * e.height⟩,
             ⟨.image e, a.rightEar.x - 0.07 * e.width / 2, a.rightEar.y,
                0.07 * e.width, 0.07 * e.height⟩]
          | none => []) ++
         (match s.necklaceImg with
          | some n =>
            [⟨.image n, a.neck.x - 0.18 * n.width / 2, a.neck.y,
                0.18 * n.width, 0.18 * n.height⟩]
          | none => [])) } ∧
      (s.earringImg = none → s.necklaceImg = none → drawJewelry s L ctx = .ok ctx) := by
  have h := drawJewelry_eq_specComposite s L ctx a ha
  refine ⟨by simpa [specComposite] using h, ?_⟩
  intro he hn
  rw [h, he, hn]
  simp [specComposite]

/-- Witness for C3: earring 100x200 and necklace 300x100 on `sampleFace` at 1280x720. -/
theorem drawJewelry_draw_calls_witness :
    drawJewelry bothSelected sampleFace ⟨1280, 720, []⟩ = .ok ⟨1280, 720,
        [⟨.image sampleEarring, 1261 / 2, 272, 7, 14⟩,
         ⟨.image sampleEarring, 1285 / 2, 272, 7, 14⟩,
         ⟨.image sampleNecklace, 605, 298, 54, 18⟩]⟩ ∧
      drawJewelry idleState sampleFace ⟨1280, 720, []⟩ = .ok ⟨1280, 720, []⟩ := by
  refine ⟨?_, (drawJewelry_draw_calls idleState sampleFace ⟨1280, 720, []⟩ _
    (sampleFace_anchors _)).2 rfl rfl⟩
  rw [(drawJewelry_draw_calls bothSelected sampleFace ⟨1280, 720, []⟩ _
    (sampleFace_anchors _)).1]
  simp only [bothSelected, idleState, specProject, sampleEarring, sampleNecklace]
  norm_num

/-! ## Claims on the tracking loop -/

/-- C4 as stated fails: after a detection frame has drawn two earrings on the live canvas, a
callback with zero faces wipes them; the last overlay does not persist. -/
theorem zero_faces_clears_canvas :
    (onResults earringSelected ⟨some [sampleFace]⟩).1.canvasElement.painted =
        [⟨.image sampleEarring, 1261 / 2, 272, 7, 14⟩,
         ⟨.image sampleEarring, 1285 / 2, 272, 7, 14⟩] ∧
      (onResults (onResults earringSelected ⟨some [sampleFace]⟩).1 ⟨some []⟩).1.canvasElement ≠
        (onResults earringSelected ⟨some [sampleFace]⟩).1.canvasElement ∧
      (onResults (onResults earringSelected ⟨some [sampleFace]⟩).1
        ⟨some []⟩).1.canvasElement.painted = [] := by
  have h1 : (onResults earringSelected ⟨some [sampleFace]⟩).1.canvasElement.painted =
      [⟨.image sampleEarring, 1261 / 2, 272, 7, 14⟩,
       ⟨.image sampleEarring, 1285 / 2, 272, 7, 14⟩] := by
    rw [onResults_bootstrap_draw earringSelected sampleFace [] _ rfl (sampleFace_anchors _)]
    simp only [earringSelected, idleState, specProject, specComposite, sampleEarring]
    norm_num
  have h2 : (onResults (onResults earringSelected ⟨some [sampleFace]⟩).1
      ⟨some []⟩).1.canvasElement.painted = [] := by
    simp [onResults, Canvas.clearRect]
  refine ⟨h1, ?_, h2⟩
  intro h
  have h3 := congrArg Canvas.painted h
  rw [h1, h2] at h3
  exact List.noConfusion h3

/-- C4 (amended): a callback with zero faces (no list, or an empty list) leaves every variable
of the script as it was, the smoother state included, and draws nothing, but it clears the
live canvas. -/
theorem onResults_zero_faces (s : AppState) (results : Results)
    (h : results.multiFaceLandmarks = none ∨ results.multiFaceLandmarks = some []) :
    onResults s results = ({ s with canvasElement := s.canvasElement.clearRect }, none) ∧
      (onResults s results).1.smoothedLandmarks = s.smoothedLandmarks ∧
      (onResults s results).1.canvasElement.painted = [] := by
  have h1 : onResults s results =
      ({ s with canvasElement := s.canvasElement.clearRect }, none) := by
    rcases h with h | h <;> simp [onResults, h]
  rw [h1]
  exact ⟨rfl, rfl, rfl⟩

/-- Witness for C4 (amended): a zero-face callback in a tracking state with both overlays
selected. -/
theorem onResults_zero_faces_witness :
    onResults bothSelected ⟨some []⟩ =
        ({ bothSelected with canvasElement := bothSelected.canvasElement.clearRect }, none) ∧
      (onResults bothSelected ⟨some []⟩).1.smoothedLandmarks = bothSelected.smoothedLandmarks ∧
      (onResults bothSelected ⟨some []⟩).1.canvasElement.painted = [] :=
  onResults_zero_faces bothSelected ⟨some []⟩ (Or.inr rfl)

/-! ## Claims on the snapshot -/

/-- C9: when no smoothed landmark set is held, `takeSnapshot` raises the face-not-detected
alert and does nothing else: no off-screen canvas is created, so nothing is drawn, and the
state, `lastSnapshotDataURL` included, is unchanged. -/
theorem takeSnapshot_without_face (toDataURL : Canvas → Except JsError String) (s : AppState)
    (h : s.smoothedLandmarks = none) :
    takeSnapshot toDataURL s =
        { state := s
          alert := some "Face not detected. Please try again."
          snapshotCanvas := none } ∧
      (takeSnapshot toDataURL s).state.lastSnapshotDataURL = s.lastSnapshotDataURL := by
  have h1 : takeSnapshot toDataURL s =
      { state := s
        alert := some "Face not detected. Please try again."
        snapshotCanvas := none } := by
    simp [takeSnapshot, h]
  rw [h1]
  exact ⟨rfl, rfl⟩

/-- Witness for C9: a snapshot in the start-up state. -/
theorem takeSnapshot_without_face_witness :
    takeSnapshot sampleToDataURL idleState =
        { state := idleState
          alert := some "Face not detected. Please try again."
          snapshotCanvas := none } ∧
      (takeSnapshot sampleToDataURL idleState).state.lastSnapshotDataURL =
        idleState.lastSnapshotDataURL :=
  takeSnapshot_without_face sampleToDataURL idleState rfl

theorem fetchStart_uncached (st : FetchState) (category : String)
    (h : DriveCache.has st.driveCache ("cat:" ++ category) = false) :
    fetchStart st category =
      ({ st with sent := st.sent ++ [⟨DRIVE_API_URL, category⟩] },
        .awaiting ⟨DRIVE_API_URL, category⟩) := by
  simp [fetchStart, h]

theorem fetchResume_sent (st : FetchState) (category : String) (res : Response) :
    (fetchResume st category res).1.sent = st.sent := by
  unfold fetchResume
  split
  · rfl
  · split
    · rfl
    · split <;> rfl

theorem fetchResume_result (st st2 : FetchState) (category : String) (res : Response) :
    (fetchResume st category res).2 = (fetchResume st2 category res).2 := by
  unfold fetchResume
  split
  · rfl
  · split
    · rfl
    · split <;> rfl

theorem startCalls_uncached (category : String) :
    ∀ (n : ℕ) (st : FetchState), DriveCache.has st.driveCache ("cat:" ++ category) = false →
      startCalls category n st =
        ({ st with sent := st.sent ++ List.replicate n ⟨DRIVE_API_URL, category⟩ },
          List.replicate n (.awaiting ⟨DRIVE_API_URL, category⟩))
  | 0, st, _ => by simp [startCalls]
  | n + 1, st, h => by
    have ih := startCalls_uncached category n
      { st with sent := st.sent ++ [⟨DRIVE_API_URL, category⟩] } h
    simp only [startCalls, fetchStart_uncached st category h, ih]
    simp [List.replicate_succ]

theorem resumeCalls_awaiting (category : String) (req : Request) (st0 : FetchState) :
    ∀ (responses : List Response) (st : FetchState),
      (resumeCalls category
          ((List.replicate responses.length (Started.awaiting req)).zip responses) st).1.sent =
          st.sent ∧
        (resumeCalls category
          ((List.replicate responses.length (Started.awaiting req)).zip responses) st).2 =
          responses.map (fun res => (fetchResume st0 category res).2)
  | [], st => by simp [resumeCalls]
  | res :: rest, st => by
    have ih := resumeCalls_awaiting category req st0 rest (fetchResume st category res).1
    simp only [List.length_cons, List.replicate_succ, List.zip_cons_cons, resumeCalls,
      List.map_cons]
    refine ⟨?_, ?_⟩
    · exact ih.1.trans (fetchResume_sent st category res)
    · rw [fetchResume_result st st0]
      exact congrArg _ ih.2

/-! ## Claims on the catalogue cache -/

/-- C6 as stated fails: two calls for the uncached category `earrings-gold`, both started
before any response arrives, send two catalogue requests, not one. -/
theorem overlapping_calls_send_twice :
    DriveCache.has freshFetchState.driveCache ("cat:" ++ "earrings-gold") = false ∧
      (overlappingCalls freshFetchState "earrings-gold" [goldResponse, goldResponse]).1.sent =
        [⟨DRIVE_API_URL, "earrings-gold"⟩, ⟨DRIVE_API_URL, "earrings-gold"⟩] ∧
      (overlappingCalls freshFetchState "earrings-gold"
        [goldResponse, goldResponse]).1.sent.length ≠ freshFetchState.sent.length + 1 := by
  have h : (overlappingCalls freshFetchState "earrings-gold"
      [goldResponse, goldResponse]).1.sent =
      [⟨DRIVE_API_URL, "earrings-gold"⟩, ⟨DRIVE_API_URL, "earrings-gold"⟩] := by
    simp [overlappingCalls, startCalls, resumeCalls, fetchStart, fetchResume, freshFetchState,
      goldResponse, DriveCache.has, DriveCache.get, DriveCache.set]
  refine ⟨rfl, h, ?_⟩
  rw [h]
  simp [freshFetchState]

/-- C6 (amended): `N` calls for the same uncached category, each started before any response
has arrived, send exactly `N` catalogue requests, one per call and all for that category, and
each caller receives the outcome of its own response. -/
theorem overlapping_calls_each_send (st : FetchState) (category : String)
    (responses : List Response)
    (h : DriveCache.has st.driveCache ("cat:" ++ category) = false) :
    (overlappingCalls st category responses).1.sent =
        st.sent ++ List.replicate responses.length ⟨DRIVE_API_URL, category⟩ ∧
      (overlappingCalls st category responses).2 =
        responses.map (fun res => (fetchResume st category res).2) := by
  unfold overlappingCalls
  simp only [startCalls_uncached category responses.length st h]
  have hr := resumeCalls_awaiting category ⟨DRIVE_API_URL, category⟩ st responses
    { st with sent := st.sent ++ List.replicate responses.length ⟨DRIVE_API_URL, category⟩ }
  exact ⟨hr.1, hr.2⟩

/-- Witness for C6 (amended): two overlapping calls for `earrings-gold` on a fresh cache. -/
theorem overlapping_calls_each_send_witness :
    (overlappingCalls freshFetchState "earrings-gold" [goldResponse, failedResponse]).1.sent =
        freshFetchState.sent ++
          List.replicate [goldResponse, failedResponse].length
            ⟨DRIVE_API_URL, "earrings-gold"⟩ ∧
      (overlappingCalls freshFetchState "earrings-gold" [goldResponse, failedResponse]).2 =
        [goldResponse, failedResponse].map
          (fun res => (fetchResume freshFetchState "earrings-gold" res).2) :=
  overlapping_calls_each_send freshFetchState "earrings-gold" [goldResponse, failedResponse] rfl

end TryOn
